import Mathlib

set_option maxRecDepth 8000
set_option linter.unusedVariables false

/-!
Shallow embedding of the `python-frank-energie` client library
(`src/python_frank_energie/frank_energie.py`, `models.py`, `exceptions.py`).

Conventions of the embedding:
* Python exceptions are values of the inductive type `PyExc`; a Python
  function that may raise is embedded as a function into `Except PyExc _`.
* JSON dictionaries decoded from GraphQL responses are embedded as typed
  records.  Where the code distinguishes a key that is absent from a key
  bound to `null` the record field has type `Keyed _` (absent / null /
  value); where the two are observationally identical (both falsy, or both
  turned into `None` by `dict.get`) a single `Option _` field is used.
* `datetime` values are embedded as seconds since the epoch (`Nat`), always
  in UTC, matching the `timezone.utc` wall clocks used by `models.py`.
  The external `dateutil.parser.parse` step is outside the embedded code:
  price and invoice dictionaries carry already-parsed timestamps.
* Python `float` values are embedded as `Rat`; `round(x, n)` is embedded
  as decimal rounding half-to-even (`pyRound`).  No theorem below depends
  on the numeric values produced by rounding.
-/

/-- Python exception values raised by the embedded code.  The typed
exceptions come from `exceptions.py`; the rest are Python builtins. -/
inductive PyExc where
  | authException (msg : String)
  | authRequiredException (msg : String)
  | frankEnergieException (args : List String)
  | smartTradingNotEnabledException (msg : String)
  | requestException (msg : String)
  | valueError (msg : String)
  | keyError (key : String)
  | indexError (msg : String)
  | attributeError
  | typeError
  | zeroDivisionError
  deriving DecidableEq, Repr

/-- Value stored under a dictionary key, when the code distinguishes an
absent key from a key bound to JSON `null`. -/
inductive Keyed (α : Type) where
  | absent
  | null
  | val (a : α)
  deriving DecidableEq, Repr

/-- One element of a GraphQL top-level `errors` list.  The code reads
`error["message"]`; `message = none` models an error object without a
`message` key (the subscript then raises `KeyError`). -/
structure ErrorObj where
  message : Option String
  deriving DecidableEq, Repr

/-- Authentication data (`models.py`, class `Authentication`).  The tokens
are filled by `payload.get(...)` and may therefore be `None`. -/
structure Authentication where
  authToken : Option String
  refreshToken : Option String
  deriving DecidableEq, Repr

/-- Value of `data.login` or `data.renewToken` when it is a truthy
dictionary; `payload.get` may still return `None` for either token. -/
structure TokenPayload where
  authToken : Option String
  refreshToken : Option String
  deriving DecidableEq, Repr

/-- Value of the top-level `data` key of a login / renewToken response when
it is a dictionary.  A field is `none` when the corresponding key is
absent, `null`, or a falsy (empty) dictionary: the three cases coincide in
`Authentication.from_dict`, which only probes the payloads by `.get`
followed by truthiness tests. -/
structure AuthData where
  login : Option TokenPayload
  renewToken : Option TokenPayload
  deriving DecidableEq, Repr

/-- Decoded JSON body of a login / renewToken response.  `errors = []`
models an `errors` key that is absent, `null`, or an empty list (all falsy,
all skipped by `if errors:`). -/
structure AuthResponse where
  errors : List ErrorObj
  data : Keyed AuthData
  deriving DecidableEq, Repr

/-- Character-list recursion deciding whether `cs` begins with `ps`. -/
def startsWithChars : List Char → List Char → Bool
  | [], _ => true
  | _ :: _, [] => false
  | p :: ps, c :: cs => p == c && startsWithChars ps cs

/-- Embedding of Python `s.startswith(pre)`. -/
def pyStartsWith (s pre : String) : Bool := startsWithChars pre.data s.data

/-- Embedding of `FrankEnergie._handle_errors` (frank_energie.py lines
138-169).  Every branch of the loop body either raises or returns from the
method, so only the first element of a non-empty error list is ever
inspected; a message starting with "No marketprices found for segment"
makes the method return without raising. -/
def handle_errors (errors : List ErrorObj) : Except PyExc Unit :=
  match errors with
  | [] => Except.ok ()
  | e :: _ =>
    match e.message with
    | none => Except.error (PyExc.keyError "message")
    | some m =>
      if m = "user-error:password-invalid" then
        Except.error (PyExc.authException "Invalid password")
      else if m = "user-error:auth-not-authorised" then
        Except.error (PyExc.authException "Not authorized")
      else if m = "user-error:auth-required" then
        Except.error (PyExc.authRequiredException "Authentication required")
      else if m = "Graphql validation error" then
        Except.error (PyExc.frankEnergieException ["Request failed: Graphql validation error"])
      else if pyStartsWith m "No marketprices found for segment" then
        Except.ok ()
      else if pyStartsWith m "No connections found for user" then
        Except.error (PyExc.frankEnergieException ["Request failed: %s", m])
      else if m = "user-error:smart-trading-not-enabled" then
        Except.error (PyExc.smartTradingNotEnabledException
          "Smart trading is not enabled for this user.")
      else
        Except.error (PyExc.authException "Authorization error")

/-- Embedding of `Authentication.from_dict` (models.py lines 22-39). -/
def Authentication.from_dict (data : AuthResponse) : Except PyExc Authentication :=
  match data.errors with
  | e :: _ =>
    match e.message with
    | none => Except.error (PyExc.keyError "message")
    | some m => Except.error (PyExc.authException m)
  | [] =>
    match data.data with
    | Keyed.null => Except.error PyExc.attributeError
    | Keyed.absent =>
      Except.error (PyExc.authException "Unexpected response")
    | Keyed.val d =>
      match d.login.orElse (fun _ => d.renewToken) with
      | none => Except.error (PyExc.authException "Unexpected response")
      | some payload =>
        Except.ok (Authentication.mk payload.authToken payload.refreshToken)

/-- Embedding of `FrankEnergie.is_authenticated` (frank_energie.py lines
1362-1371): an `Authentication` is held and its `authToken` is not `None`. -/
def is_authenticated (auth : Option Authentication) : Bool :=
  match auth with
  | none => false
  | some a => a.authToken.isSome

/-- Exception translation performed by the `except` clause of
`FrankEnergie._query` (lines 120-125): `KeyError` raised inside `_query`
is wrapped into `FrankEnergieException`, everything else is re-raised
unchanged.  The f-string rendering of the wrapped error is abstracted to
the pair of the format text and the offending key. -/
def query_wrap (e : PyExc) : PyExc :=
  match e with
  | PyExc.keyError k => PyExc.frankEnergieException ["Request failed:", k]
  | e => e

/-- Embedding of the part of `FrankEnergie._query` that is visible once a
status-200 JSON body has been received: `_handle_errors(response)` runs and
the body is returned.  Session management is handled separately (`close_step`
below); it neither reads nor writes `_auth`. -/
def query_step (r : AuthResponse) : Except PyExc AuthResponse :=
  match handle_errors r.errors with
  | Except.ok () => Except.ok r
  | Except.error e => Except.error (query_wrap e)

/-- Embedding of `FrankEnergie.login` (frank_energie.py lines 182-220),
given the decoded response body `r`.  The pair returned is the value of
`self._auth` after the call together with the outcome of the call; the
outcome carries `self._auth` as returned by the method (which is `None`
when the method falls through without parsing). -/
def login_step (auth : Option Authentication) (username password : String)
    (r : AuthResponse) : Option Authentication × Except PyExc (Option Authentication) :=
  if username.isEmpty || password.isEmpty then
    (auth, Except.error (PyExc.valueError "Username and password must be provided."))
  else
    match query_step r with
    | Except.error e => (auth, Except.error e)
    | Except.ok resp =>
      match resp.data with
      | Keyed.absent => (auth, Except.error (PyExc.keyError "data"))
      | Keyed.null =>
        match handle_errors resp.errors with
        | Except.error e => (auth, Except.error e)
        | Except.ok () => (auth, Except.ok auth)
      | Keyed.val _ =>
        match Authentication.from_dict resp with
        | Except.error e => (auth, Except.error e)
        | Except.ok a =>
          match handle_errors resp.errors with
          | Except.error e => (some a, Except.error e)
          | Except.ok () => (some a, Except.ok (some a))

/-- Embedding of `FrankEnergie.renew_token` (frank_energie.py lines
222-252), given the decoded response body `r`. -/
def renew_token_step (auth : Option Authentication) (r : AuthResponse) :
    Option Authentication × Except PyExc (Option Authentication) :=
  if auth.isNone || !is_authenticated auth then
    (auth, Except.error (PyExc.authRequiredException "Authentication is required."))
  else
    match query_step r with
    | Except.error e => (auth, Except.error e)
    | Except.ok resp =>
      match Authentication.from_dict resp with
      | Except.error e => (auth, Except.error e)
      | Except.ok a => (some a, Except.ok (some a))

/-- True exactly when an `Except` value is an error. -/
def isErr {ε α : Type} : Except ε α → Bool
  | Except.error _ => true
  | Except.ok _ => false

/-- GraphQL request as assembled by an operation just before `_query` posts
it; only the operation name is relevant to the theorems below. -/
structure GqlRequest where
  operationName : String
  deriving DecidableEq, Repr

/-- Guard-and-request part of `FrankEnergie.renew_token` (lines 232-233):
the strong guard `self._auth is None or not self.is_authenticated`. -/
def renew_token_op (auth : Option Authentication) : Except PyExc GqlRequest :=
  if auth.isNone || !is_authenticated auth then
    Except.error (PyExc.authRequiredException "Authentication is required.")
  else Except.ok (GqlRequest.mk "RenewToken")

/-- Guard-and-request part of `FrankEnergie.month_summary` (lines 303-304). -/
def month_summary_op (auth : Option Authentication) (site_reference : String) :
    Except PyExc GqlRequest :=
  if auth.isNone || !is_authenticated auth then
    Except.error (PyExc.authRequiredException "Authentication is required.")
  else Except.ok (GqlRequest.mk "MonthSummary")

/-- Guard-and-request part of `FrankEnergie.meter_readings` (lines 267-268). -/
def meter_readings_op (auth : Option Authentication) (site_reference : String) :
    Except PyExc GqlRequest :=
  if auth.isNone || !is_authenticated auth then
    Except.error (PyExc.authRequiredException "Authentication is required.")
  else Except.ok (GqlRequest.mk "ActualAndExpectedMeterReadings")

/-- Guard-and-request part of `FrankEnergie.invoices` (lines 367-368). -/
def invoices_op (auth : Option Authentication) (site_reference : String) :
    Except PyExc GqlRequest :=
  if auth.isNone || !is_authenticated auth then
    Except.error (PyExc.authRequiredException "Authentication is required.")
  else Except.ok (GqlRequest.mk "Invoices")

/-- Guard-and-request part of `FrankEnergie.me` (lines 719-720): the weak
guard `if self._auth is None`, raising the bare `AuthRequiredException`. -/
def me_op (auth : Option Authentication) (site_reference : Option String) :
    Except PyExc GqlRequest :=
  if auth.isNone then Except.error (PyExc.authRequiredException "")
  else Except.ok (GqlRequest.mk "Me")

/-- Guard-and-request part of `FrankEnergie.user` (lines 895-896): weak
guard only. -/
def user_op (auth : Option Authentication) (site_reference : Option String) :
    Except PyExc GqlRequest :=
  if auth.isNone then Except.error (PyExc.authRequiredException "")
  else Except.ok (GqlRequest.mk "Me")

/-- Guard-and-request part of `FrankEnergie.user_prices` (lines 1083-1084):
weak guard only. -/
def user_prices_op (auth : Option Authentication) (site_reference : String) :
    Except PyExc GqlRequest :=
  if auth.isNone then Except.error (PyExc.authRequiredException "")
  else Except.ok (GqlRequest.mk "MarketPrices")

/-- Guard-and-request part of `FrankEnergie.period_usage_and_costs` (lines
1175-1176): weak guard only. -/
def period_usage_and_costs_op (auth : Option Authentication) (site_reference : String) :
    Except PyExc GqlRequest :=
  if auth.isNone then Except.error (PyExc.authRequiredException "")
  else Except.ok (GqlRequest.mk "PeriodUsageAndCosts")

/-- Guard-and-request part of `FrankEnergie.smart_batteries` (lines
1257-1258): weak guard only. -/
def smart_batteries_op (auth : Option Authentication) : Except PyExc GqlRequest :=
  if auth.isNone then Except.error (PyExc.authRequiredException "")
  else Except.ok (GqlRequest.mk "SmartBatteries")

/-- Guard-and-request part of `FrankEnergie.smart_battery_sessions` (lines
1318-1319): weak guard only. -/
def smart_battery_sessions_op (auth : Option Authentication) (device_id : String) :
    Except PyExc GqlRequest :=
  if auth.isNone then Except.error (PyExc.authRequiredException "")
  else Except.ok (GqlRequest.mk "SmartBatterySessions")

/-- Mutable state of a `FrankEnergie` client relevant to session handling:
`self._session` (identified by a number, `none` when no session is held)
and `self._close_session`. -/
structure SessionState where
  session : Option Nat
  closeSession : Bool
  deriving DecidableEq, Repr

/-- Construction of the `_auth` field by `FrankEnergie.__init__` (lines
56-68): an `Authentication` is stored whenever either token is given. -/
def init_auth (auth_token refresh_token : Option String) : Option Authentication :=
  if auth_token.isSome || refresh_token.isSome then
    some (Authentication.mk auth_token refresh_token)
  else none

/-- Construction of the session fields by `FrankEnergie.__init__`:
`_close_session = False`, `_session = clientsession`. -/
def init_session (clientsession : Option Nat) : SessionState :=
  SessionState.mk clientsession false

/-- Session acquisition at the top of `FrankEnergie._query` (lines 85-87):
a missing session is replaced by a freshly created one and
`_close_session` is set. -/
def ensure_session (st : SessionState) (fresh : Nat) : SessionState :=
  if st.session.isNone then SessionState.mk (some fresh) true else st

/-- Embedding of `FrankEnergie.close` (lines 1381-1386).  The boolean of
the result records whether the underlying session object was closed by
this call. -/
def close_step (st : SessionState) : SessionState × Bool :=
  if st.closeSession && st.session.isSome then
    (SessionState.mk none false, true)
  else (st, false)

/-- Decimal rounding half-to-even of a rational, the embedding of Python
`round(x, n)` (Python rounds ties to the nearest even digit). -/
def pyRound (q : Rat) (n : Nat) : Rat :=
  let m : Rat := (10 : Rat) ^ n
  let scaled := q * m
  let f : Int := ⌊scaled⌋
  let r := scaled - (f : Rat)
  let i : Int :=
    if r < 1 / 2 then f
    else if 1 / 2 < r then f + 1
    else if f % 2 = 0 then f else f + 1
  (i : Rat) / m

/-- Price data for one hour (`models.py`, class `Price`), in its state
after `__init__` has parsed the entry dictionary: timestamps are seconds
since the epoch in UTC. -/
structure Price where
  date_from : Nat
  date_till : Nat
  market_price : Rat
  market_price_tax : Rat
  sourcing_markup_price : Rat
  energy_tax_price : Rat
  deriving DecidableEq, Repr

/-- Embedding of `Price.for_now` (models.py lines 165-168), with the value
of `datetime.now(timezone.utc)` passed explicitly as `now`. -/
def Price.for_now (p : Price) (now : Nat) : Bool :=
  decide (p.date_from ≤ now) && decide (now < p.date_till)

/-- Embedding of `Price.for_future` (models.py lines 170-173): the code
compares only the `.hour` attributes, the hour-of-day numbers of the
start timestamp and of the current time. -/
def Price.for_future (p : Price) (now : Nat) : Bool :=
  decide (p.date_from / 3600 % 24 > now / 3600 % 24)

/-- Embedding of `Price.for_today` (models.py lines 175-182): the UTC day
containing `now` starts at `now` truncated to a multiple of 86400 seconds
(the effect of `.replace(hour=0, minute=0, second=0, microsecond=0)`). -/
def Price.for_today (p : Price) (now : Nat) : Bool :=
  let day_start := now / 86400 * 86400
  let day_end := day_start + 86400
  decide (p.date_from ≥ day_start) && decide (p.date_till ≤ day_end)

/-- Embedding of `Price.market_price_with_tax` (models.py lines 184-186). -/
def Price.market_price_with_tax (p : Price) : Rat :=
  pyRound (p.market_price + p.market_price_tax) 4

/-- Embedding of `Price.total` (models.py lines 188-196). -/
def Price.total (p : Price) : Rat :=
  pyRound (p.market_price + p.market_price_tax
    + p.sourcing_markup_price + p.energy_tax_price) 4

/-- Price series (`models.py`, class `PriceData`): the `price_data` list. -/
structure PriceData where
  price_data : List Price
  deriving DecidableEq, Repr

/-- Entry dictionary consumed by `Price.__init__`, with the `from` and
`till` strings already put through `dateutil.parser.parse` (seconds since
the epoch, UTC); malformed entries, which would make `__init__` itself
raise, are outside this embedding and outside every claim below. -/
structure PriceDict where
  date_from : Nat
  date_till : Nat
  marketPrice : Rat
  marketPriceTax : Rat
  sourcingMarkupPrice : Rat
  energyTaxPrice : Rat
  deriving DecidableEq, Repr

/-- Embedding of `Price.__init__` (models.py lines 153-160) on a
well-formed entry dictionary. -/
def Price.ofDict (d : PriceDict) : Price :=
  Price.mk d.date_from d.date_till d.marketPrice d.marketPriceTax
    d.sourcingMarkupPrice d.energyTaxPrice

/-- Embedding of `PriceData.__init__` (models.py lines 199-204): with
argument `None` the constructor body is skipped and the instance exposes
the empty class-level list; otherwise every entry is parsed. -/
def PriceData.ofPy (price_data : Option (List PriceDict)) : PriceData :=
  match price_data with
  | none => PriceData.mk []
  | some l => PriceData.mk (l.map Price.ofDict)

/-- Embedding of `PriceData.__add__` (models.py lines 206-209). -/
def PriceData.add (a b : PriceData) : PriceData :=
  PriceData.mk (a.price_data ++ b.price_data)

/-- Embedding of `PriceData.today` (models.py lines 215-217). -/
def PriceData.today (pd : PriceData) (now : Nat) : List Price :=
  pd.price_data.filter (fun h => Price.for_today h now)

/-- Embedding of `PriceData.current_hour` (models.py lines 219-222):
`[0]` on the filtered list raises `IndexError` when the list is empty. -/
def PriceData.current_hour (pd : PriceData) (now : Nat) : Except PyExc Price :=
  match pd.price_data.filter (fun h => Price.for_now h now) with
  | [] => Except.error (PyExc.indexError "list index out of range")
  | p :: _ => Except.ok p

/-- Embedding of Python `min(xs, key=key)` on a list: raises `ValueError`
on an empty list, otherwise keeps the first element among those with the
least key. -/
def pyMin (key : Price → Rat) : List Price → Except PyExc Price
  | [] => Except.error (PyExc.valueError "min() arg is an empty sequence")
  | x :: xs => Except.ok (xs.foldl (fun best y => if key y < key best then y else best) x)

/-- Embedding of Python `max(xs, key=key)` on a list: raises `ValueError`
on an empty list, otherwise keeps the first element among those with the
greatest key. -/
def pyMax (key : Price → Rat) : List Price → Except PyExc Price
  | [] => Except.error (PyExc.valueError "max() arg is an empty sequence")
  | x :: xs => Except.ok (xs.foldl (fun best y => if key best < key y then y else best) x)

/-- Embedding of `PriceData.today_min` (models.py lines 224-226). -/
def PriceData.today_min (pd : PriceData) (now : Nat) : Except PyExc Price :=
  pyMin Price.total (pd.today now)

/-- Embedding of `PriceData.today_max` (models.py lines 228-230). -/
def PriceData.today_max (pd : PriceData) (now : Nat) : Except PyExc Price :=
  pyMax Price.total (pd.today now)

/-- Embedding of `PriceData.today_avg` (models.py lines 232-234):
`sum(...) / len(self.today)` raises `ZeroDivisionError` when no entry is
classified as today. -/
def PriceData.today_avg (pd : PriceData) (now : Nat) : Except PyExc Rat :=
  let ts := pd.today now
  if ts.length = 0 then Except.error PyExc.zeroDivisionError
  else Except.ok (pyRound (((ts.map Price.total).sum) / (ts.length : Rat)) 5)

/-- Embedding of `PriceData.get_future_prices` (models.py lines 236-238). -/
def PriceData.get_future_prices (pd : PriceData) (now : Nat) : List Price :=
  pd.price_data.filter (fun h => Price.for_future h now)

/-- Value of the top-level `data` key of a market-prices response when it
is a dictionary.  `Keyed` records absence / null / value of the two price
keys (`dict.get` yields `None` for the first two, and presence of the key
with any value makes the dictionary non-empty); `otherKeys` counts the
remaining keys of the dictionary (the real responses also carry `version`
and `__typename`). -/
structure MarketData where
  marketPricesElectricity : Keyed (List PriceDict)
  marketPricesGas : Keyed (List PriceDict)
  otherKeys : Nat
  deriving DecidableEq, Repr

/-- Truthiness of the `data` dictionary of a market-prices response: a
dictionary is truthy exactly when it has at least one key. -/
def MarketData.truthy (d : MarketData) : Bool :=
  !(d.marketPricesElectricity == Keyed.absent)
    || !(d.marketPricesGas == Keyed.absent)
    || !(d.otherKeys == 0)

/-- Result of `payload.get(key)`: `None` both for an absent key and for a
key bound to `null`. -/
def Keyed.get {α : Type} : Keyed α → Option α
  | Keyed.absent => none
  | Keyed.null => none
  | Keyed.val a => some a

/-- Decoded JSON body of a market-prices response.  `data = none` models a
`data` key that is absent or bound to `null`: `data.get("data", {})` then
yields `{}` or `None`, both of which fail the truthiness test in
`MarketPrices.from_dict` the same way. -/
structure MarketResponse where
  errors : List ErrorObj
  data : Option MarketData
  deriving DecidableEq, Repr

/-- Market prices value object (`models.py`, class `MarketPrices`). -/
structure MarketPrices where
  marketPricesElectricity : PriceData
  marketPricesGas : PriceData
  deriving DecidableEq, Repr

/-- Embedding of `MarketPrices.from_dict` (models.py lines 254-266). -/
def MarketPrices.from_dict (r : MarketResponse) : Except PyExc MarketPrices :=
  match r.errors with
  | e :: _ =>
    match e.message with
    | none => Except.error (PyExc.keyError "message")
    | some m => Except.error (PyExc.requestException m)
  | [] =>
    match r.data with
    | none => Except.error (PyExc.requestException "Unexpected response")
    | some d =>
      if !d.truthy then Except.error (PyExc.requestException "Unexpected response")
      else
        Except.ok (MarketPrices.mk
          (PriceData.ofPy d.marketPricesElectricity.get)
          (PriceData.ofPy d.marketPricesGas.get))

/-- Invoice dictionary consumed by `Invoices.Invoice.from_dict`, with
`StartDate` already put through `dateutil.parser.parse` when present;
`StartDate = none` models an absent or `null` key, on which
`parser.parse(None)` raises `TypeError`. -/
structure InvoiceDict where
  StartDate : Option Nat
  PeriodDescription : Option String
  TotalAmount : Option Rat
  deriving DecidableEq, Repr

/-- Invoice value object (`models.py`, class `Invoices.Invoice`). -/
structure Invoice where
  StartDate : Nat
  PeriodDescription : Option String
  TotalAmount : Option Rat
  deriving DecidableEq, Repr

/-- Embedding of `Invoices.Invoice.from_dict` (models.py lines 54-60).
The argument is `payload.get(...)`, hence `none` when the sub-period key
is absent or `null`; `None.get("StartDate")` then raises
`AttributeError`. -/
def Invoice.from_dict (data : Option InvoiceDict) : Except PyExc Invoice :=
  match data with
  | none => Except.error PyExc.attributeError
  | some d =>
    match d.StartDate with
    | none => Except.error PyExc.typeError
    | some t => Except.ok (Invoice.mk t d.PeriodDescription d.TotalAmount)

/-- Value of the `invoices` key of an invoices response when it is a
truthy dictionary.  A sub-period field is `none` when its key is absent or
bound to `null` (both make `payload.get` yield `None`). -/
structure InvoicesPayload where
  previousPeriodInvoice : Option InvoiceDict
  currentPeriodInvoice : Option InvoiceDict
  upcomingPeriodInvoice : Option InvoiceDict
  deriving DecidableEq, Repr

/-- Value of the top-level `data` key of an invoices response when it is a
dictionary; `invoices = none` models an `invoices` key that is absent,
`null` or a falsy empty dictionary. -/
structure InvoicesData where
  invoices : Option InvoicesPayload
  deriving DecidableEq, Repr

/-- Decoded JSON body of an invoices response. -/
structure InvoicesResponse where
  errors : List ErrorObj
  data : Keyed InvoicesData
  deriving DecidableEq, Repr

/-- Invoices value object (`models.py`, class `Invoices`). -/
structure Invoices where
  previousPeriodInvoice : Invoice
  currentPeriodInvoice : Invoice
  upcomingPeriodInvoice : Invoice
  deriving DecidableEq, Repr

/-- Embedding of `Invoices.from_dict` (models.py lines 66-86).  The three
sub-period invoices are parsed in source order: previous, current,
upcoming. -/
def Invoices.from_dict (r : InvoicesResponse) : Except PyExc Invoices :=
  match r.errors with
  | e :: _ =>
    match e.message with
    | none => Except.error (PyExc.keyError "message")
    | some m => Except.error (PyExc.requestException m)
  | [] =>
    match r.data with
    | Keyed.null => Except.error PyExc.attributeError
    | Keyed.absent => Except.error (PyExc.requestException "Unexpected response")
    | Keyed.val d =>
      match d.invoices with
      | none => Except.error (PyExc.requestException "Unexpected response")
      | some p => do
        let prev ← Invoice.from_dict p.previousPeriodInvoice
        let cur ← Invoice.from_dict p.currentPeriodInvoice
        let upc ← Invoice.from_dict p.upcomingPeriodInvoice
        return Invoices.mk prev cur upc

theorem foldl_pick_mem (f : Price → Price → Price)
    (hf : ∀ a b, f a b = a ∨ f a b = b) :
    ∀ (xs : List Price) (x : Price), xs.foldl f x ∈ x :: xs := by
  intro xs
  induction xs with
  | nil => intro x; simp
  | cons y ys ih =>
    intro x
    simp only [List.foldl_cons]
    rcases hf x y with h0 | h0 <;> rw [h0]
    · rcases List.mem_cons.mp (ih x) with h1 | h1 <;> simp [h1]
    · rcases List.mem_cons.mp (ih y) with h1 | h1 <;> simp [h1]

theorem foldl_min_le (key : Price → Rat) :
    ∀ (xs : List Price) (x : Price) (q : Price), q ∈ x :: xs →
      key (xs.foldl (fun best y => if key y < key best then y else best) x) ≤ key q := by
  intro xs
  induction xs with
  | nil =>
    intro x q hq
    simp only [List.mem_singleton] at hq
    subst hq
    simp
  | cons y ys ih =>
    intro x q hq
    simp only [List.foldl_cons]
    have hbx : key (if key y < key x then y else x) ≤ key x := by
      split
      · exact le_of_lt (by assumption)
      · exact le_refl _
    have hby : key (if key y < key x then y else x) ≤ key y := by
      split
      · exact le_refl _
      · exact le_of_not_lt (by assumption)
    have hhead : key (ys.foldl (fun best y => if key y < key best then y else best)
        (if key y < key x then y else x)) ≤ key (if key y < key x then y else x) :=
      ih _ _ (List.mem_cons_self _ _)
    rcases List.mem_cons.mp hq with h1 | h1
    · subst h1; exact le_trans hhead hbx
    · rcases List.mem_cons.mp h1 with h2 | h2
      · subst h2; exact le_trans hhead hby
      · exact ih _ _ (List.mem_cons_of_mem _ h2)

theorem foldl_max_ge (key : Price → Rat) :
    ∀ (xs : List Price) (x : Price) (q : Price), q ∈ x :: xs →
      key q ≤ key (xs.foldl (fun best y => if key best < key y then y else best) x) := by
  intro xs
  induction xs with
  | nil =>
    intro x q hq
    simp only [List.mem_singleton] at hq
    subst hq
    simp
  | cons y ys ih =>
    intro x q hq
    simp only [List.foldl_cons]
    have hbx : key x ≤ key (if key x < key y then y else x) := by
      split
      · exact le_of_lt (by assumption)
      · exact le_refl _
    have hby : key y ≤ key (if key x < key y then y else x) := by
      split
      · exact le_refl _
      · exact le_of_not_lt (by assumption)
    have hhead : key (if key x < key y then y else x) ≤
        key (ys.foldl (fun best y => if key best < key y then y else best)
          (if key x < key y then y else x)) :=
      ih _ _ (List.mem_cons_self _ _)
    rcases List.mem_cons.mp hq with h1 | h1
    · subst h1; exact le_trans hbx hhead
    · rcases List.mem_cons.mp h1 with h2 | h2
      · subst h2; exact le_trans hby hhead
      · exact ih _ _ (List.mem_cons_of_mem _ h2)

/-- C1 counterexample: a response whose (first) error message starts with
"No marketprices found for segment" makes `_handle_errors` return without
raising any exception (the `raise` in that branch is commented out in the
source), whereas the claim states that this message raises
`FrankEnergieException`. -/
theorem C1_counterexample :
    handle_errors [ErrorObj.mk (some "No marketprices found for segment GAS")] =
      Except.ok () := rfl

/-- C1 (amended): `_handle_errors` inspects the first error message of a
non-empty error list in the order of the if/elif chain and raises
`AuthException` for "user-error:password-invalid" and
"user-error:auth-not-authorised", `AuthRequiredException` for
"user-error:auth-required", `FrankEnergieException` for "Graphql
validation error" and for messages starting with "No connections found for
user", and `SmartTradingNotEnabledException` for
"user-error:smart-trading-not-enabled"; a message starting with
"No marketprices found for segment" makes the method return without
raising, and any unrecognized message raises `AuthException`
("Authorization error"). -/
theorem C1_theorem (m : String) (rest : List ErrorObj) :
    (m = "user-error:password-invalid" →
      handle_errors (ErrorObj.mk (some m) :: rest) =
        Except.error (PyExc.authException "Invalid password")) ∧
    (m = "user-error:auth-not-authorised" →
      handle_errors (ErrorObj.mk (some m) :: rest) =
        Except.error (PyExc.authException "Not authorized")) ∧
    (m = "user-error:auth-required" →
      handle_errors (ErrorObj.mk (some m) :: rest) =
        Except.error (PyExc.authRequiredException "Authentication required")) ∧
    (m = "Graphql validation error" →
      handle_errors (ErrorObj.mk (some m) :: rest) =
        Except.error (PyExc.frankEnergieException
          ["Request failed: Graphql validation error"])) ∧
    (pyStartsWith m "No marketprices found for segment" = true →
      handle_errors (ErrorObj.mk (some m) :: rest) = Except.ok ()) ∧
    (pyStartsWith m "No connections found for user" = true →
      pyStartsWith m "No marketprices found for segment" = false →
      handle_errors (ErrorObj.mk (some m) :: rest) =
        Except.error (PyExc.frankEnergieException ["Request failed: %s", m])) ∧
    (m = "user-error:smart-trading-not-enabled" →
      handle_errors (ErrorObj.mk (some m) :: rest) =
        Except.error (PyExc.smartTradingNotEnabledException
          "Smart trading is not enabled for this user.")) ∧
    (m ≠ "user-error:password-invalid" →
      m ≠ "user-error:auth-not-authorised" →
      m ≠ "user-error:auth-required" →
      m ≠ "Graphql validation error" →
      pyStartsWith m "No marketprices found for segment" = false →
      pyStartsWith m "No connections found for user" = false →
      m ≠ "user-error:smart-trading-not-enabled" →
      handle_errors (ErrorObj.mk (some m) :: rest) =
        Except.error (PyExc.authException "Authorization error")) := by
  refine ⟨?_, ?_, ?_, ?_, ?_, ?_, ?_, ?_⟩
  · rintro rfl; rfl
  · rintro rfl; rfl
  · rintro rfl; rfl
  · rintro rfl; rfl
  · intro h
    have h1 : m ≠ "user-error:password-invalid" := by
      rintro rfl; exact absurd h (by decide)
    have h2 : m ≠ "user-error:auth-not-authorised" := by
      rintro rfl; exact absurd h (by decide)
    have h3 : m ≠ "user-error:auth-required" := by
      rintro rfl; exact absurd h (by decide)
    have h4 : m ≠ "Graphql validation error" := by
      rintro rfl; exact absurd h (by decide)
    simp only [handle_errors]
    rw [if_neg h1, if_neg h2, if_neg h3, if_neg h4, if_pos h]
  · intro h hm
    have h1 : m ≠ "user-error:password-invalid" := by
      rintro rfl; exact absurd h (by decide)
    have h2 : m ≠ "user-error:auth-not-authorised" := by
      rintro rfl; exact absurd h (by decide)
    have h3 : m ≠ "user-error:auth-required" := by
      rintro rfl; exact absurd h (by decide)
    have h4 : m ≠ "Graphql validation error" := by
      rintro rfl; exact absurd h (by decide)
    simp only [handle_errors]
    rw [if_neg h1, if_neg h2, if_neg h3, if_neg h4,
      if_neg (by simp [hm]), if_pos h]
  · rintro rfl; rfl
  · intro h1 h2 h3 h4 h5 h6 h7
    simp only [handle_errors]
    rw [if_neg h1, if_neg h2, if_neg h3, if_neg h4,
      if_neg (by simp [h5]), if_neg (by simp [h6]), if_neg h7]

/-- C1 witness: the amended theorem applied to the message
"user-error:password-invalid" on a singleton error list. -/
theorem C1_witness :
    handle_errors [ErrorObj.mk (some "user-error:password-invalid")] =
      Except.error (PyExc.authException "Invalid password") :=
  (C1_theorem ("user-error:password-invalid") []).1 rfl

/-- C2: `Price.for_future` compares only the hour-of-day numbers of the
start timestamp and of "now".  At now = 84600 (day 0, 23:30:00 UTC) the
entry [90000, 93600) (day 1, 01:00-02:00 UTC) starts strictly after the
end of the current hour, 86400, so by the claim (and by the method's own
docstring) it is for a future hour; yet the code compares 1 > 23 and
answers `false`.  The second conjunct exhibits that the entry does start
after the current hour: the end of the hour containing now, namely
(now / 3600 + 1) * 3600, is at or before the entry's start. -/
theorem C2_theorem :
    Price.for_future (Price.mk 90000 93600 1 1 1 1) 84600 = false ∧
    (84600 / 3600 + 1) * 3600 ≤ (Price.mk 90000 93600 (1 : Rat) 1 1 1).date_from ∧
    Price.for_now (Price.mk 90000 93600 1 1 1 1) 84600 = false := by
  refine ⟨rfl, by decide, rfl⟩

/-- C3 counterexample: on a series with no entries for today the aggregate
`today_avg` fails with `ZeroDivisionError` (from `sum(...) / len(...)`) and
`current_hour` fails with `IndexError` (from `[...][0]`); neither failure
is the empty-sequence `ValueError` that the claim names (only `min`/`max`
raise that error in Python). -/
theorem C3_counterexample :
    PriceData.today_avg (PriceData.mk []) 0 = Except.error PyExc.zeroDivisionError ∧
    PyExc.zeroDivisionError ≠ PyExc.valueError "min() arg is an empty sequence" ∧
    PriceData.current_hour (PriceData.mk []) 0 =
      Except.error (PyExc.indexError "list index out of range") := by
  refine ⟨rfl, by decide, rfl⟩

/-- C3 (amended): `today_min`, `today_max` and `today_avg` operate over
exactly the entries classified as today; on an empty subset `today_min`
and `today_max` fail with the empty-sequence `ValueError` while
`today_avg` fails with `ZeroDivisionError`; `current_hour` returns the
first entry whose [from, till) interval contains the current time and
fails with `IndexError` when no entry's interval contains it. -/
theorem C3_theorem (pd : PriceData) (now : Nat) :
    (pd.today now = [] →
      pd.today_min now = Except.error (PyExc.valueError "min() arg is an empty sequence") ∧
      pd.today_max now = Except.error (PyExc.valueError "max() arg is an empty sequence") ∧
      pd.today_avg now = Except.error PyExc.zeroDivisionError) ∧
    (∀ p, pd.today_min now = Except.ok p →
      p ∈ pd.today now ∧ ∀ q ∈ pd.today now, p.total ≤ q.total) ∧
    (∀ p, pd.today_max now = Except.ok p →
      p ∈ pd.today now ∧ ∀ q ∈ pd.today now, q.total ≤ p.total) ∧
    (pd.today now ≠ [] →
      pd.today_avg now =
        Except.ok (pyRound ((((pd.today now).map Price.total).sum) /
          (((pd.today now).length : Nat) : Rat)) 5)) ∧
    (pd.price_data.filter (fun h => Price.for_now h now) = [] →
      pd.current_hour now = Except.error (PyExc.indexError "list index out of range")) ∧
    (∀ p, pd.current_hour now = Except.ok p →
      p ∈ pd.price_data ∧ Price.for_now p now = true ∧
      (pd.price_data.filter (fun h => Price.for_now h now)).head? = some p) := by
  refine ⟨?_, ?_, ?_, ?_, ?_, ?_⟩
  · intro h
    refine ⟨?_, ?_, ?_⟩
    · simp [PriceData.today_min, h, pyMin]
    · simp [PriceData.today_max, h, pyMax]
    · simp [PriceData.today_avg, h]
  · intro p hp
    unfold PriceData.today_min at hp
    cases htoday : pd.today now with
    | nil => rw [htoday] at hp; simp [pyMin] at hp
    | cons x xs =>
      rw [htoday] at hp
      simp only [pyMin, Except.ok.injEq] at hp
      subst hp
      constructor
      · exact foldl_pick_mem _ (fun a b => by split <;> simp) xs x
      · intro q hq
        exact foldl_min_le Price.total xs x q hq
  · intro p hp
    unfold PriceData.today_max at hp
    cases htoday : pd.today now with
    | nil => rw [htoday] at hp; simp [pyMax] at hp
    | cons x xs =>
      rw [htoday] at hp
      simp only [pyMax, Except.ok.injEq] at hp
      subst hp
      constructor
      · exact foldl_pick_mem _ (fun a b => by split <;> simp) xs x
      · intro q hq
        exact foldl_max_ge Price.total xs x q hq
  · intro h
    unfold PriceData.today_avg
    rw [if_neg (by simpa using List.length_eq_zero.not.mpr h)]
  · intro h
    unfold PriceData.current_hour
    rw [h]
  · intro p hp
    unfold PriceData.current_hour at hp
    cases hf : pd.price_data.filter (fun h => Price.for_now h now) with
    | nil => rw [hf] at hp; exact absurd hp (by simp)
    | cons x xs =>
      rw [hf] at hp
      simp only [Except.ok.injEq] at hp
      subst hp
      have hx : x ∈ pd.price_data.filter (fun h => Price.for_now h now) := by
        rw [hf]; exact List.mem_cons_self _ _
      rw [List.mem_filter] at hx
      exact ⟨hx.1, hx.2, rfl⟩

/-- C3 witness: the amended theorem applied to the empty series. -/
theorem C3_witness :
    PriceData.today_min (PriceData.mk []) 0 =
      Except.error (PyExc.valueError "min() arg is an empty sequence") ∧
    PriceData.today_max (PriceData.mk []) 0 =
      Except.error (PyExc.valueError "max() arg is an empty sequence") ∧
    PriceData.today_avg (PriceData.mk []) 0 = Except.error PyExc.zeroDivisionError :=
  (C3_theorem (PriceData.mk []) 0).1 rfl

/-- C4: on the empty response body (no `errors` key, no `data` key) `login`
evaluates `response["data"]` and propagates the resulting `KeyError`
unchanged, leaving `self._auth` untouched; the `AuthException`
("Unexpected response") branch of `Authentication.from_dict`, which the
claim (and the test suite, `test_login_invalid_response`) expects to fire,
is never reached because the subscript raises first.  The second conjunct
shows that `Authentication.from_dict` itself would produce exactly the
claimed exception on the same body. -/
theorem C4_theorem :
    login_step none "a" "b" (AuthResponse.mk [] Keyed.absent) =
      (none, Except.error (PyExc.keyError "data")) ∧
    Authentication.from_dict (AuthResponse.mk [] Keyed.absent) =
      Except.error (PyExc.authException "Unexpected response") := ⟨rfl, rfl⟩

/-- C5 counterexample: a client constructed with only a refresh token
holds an `Authentication` whose `authToken` is `None` — it holds no auth
token (`is_authenticated` is false) — yet `smart_batteries`, whose guard
only checks `self._auth is None`, passes the guard and assembles its
network request instead of raising. -/
theorem C5_counterexample :
    smart_batteries_op (init_auth none (some "r")) =
      Except.ok (GqlRequest.mk "SmartBatteries") ∧
    is_authenticated (init_auth none (some "r")) = false := ⟨rfl, rfl⟩

/-- C5 (amended): `renew_token`, `month_summary`, `meter_readings` and
`invoices` raise `AuthRequiredException` before issuing any network
request whenever the client holds no auth token (`self._auth is None or
not self.is_authenticated`); `me`, `user`, `user_prices`,
`period_usage_and_costs`, `smart_batteries` and `smart_battery_sessions`
raise before the request exactly when the client holds no
`Authentication` object at all, and proceed to the network request
whenever one is held — even one whose `authToken` is `None`. -/
theorem C5_theorem (auth : Option Authentication) (site dev : String)
    (osr : Option String) :
    (is_authenticated auth = false →
      renew_token_op auth =
        Except.error (PyExc.authRequiredException "Authentication is required.") ∧
      month_summary_op auth site =
        Except.error (PyExc.authRequiredException "Authentication is required.") ∧
      meter_readings_op auth site =
        Except.error (PyExc.authRequiredException "Authentication is required.") ∧
      invoices_op auth site =
        Except.error (PyExc.authRequiredException "Authentication is required.")) ∧
    (auth = none →
      me_op auth osr = Except.error (PyExc.authRequiredException "") ∧
      user_op auth osr = Except.error (PyExc.authRequiredException "") ∧
      user_prices_op auth site = Except.error (PyExc.authRequiredException "") ∧
      period_usage_and_costs_op auth site =
        Except.error (PyExc.authRequiredException "") ∧
      smart_batteries_op auth = Except.error (PyExc.authRequiredException "") ∧
      smart_battery_sessions_op auth dev =
        Except.error (PyExc.authRequiredException "")) ∧
    (auth ≠ none →
      me_op auth osr = Except.ok (GqlRequest.mk "Me") ∧
      user_op auth osr = Except.ok (GqlRequest.mk "Me") ∧
      user_prices_op auth site = Except.ok (GqlRequest.mk "MarketPrices") ∧
      period_usage_and_costs_op auth site =
        Except.ok (GqlRequest.mk "PeriodUsageAndCosts") ∧
      smart_batteries_op auth = Except.ok (GqlRequest.mk "SmartBatteries") ∧
      smart_battery_sessions_op auth dev =
        Except.ok (GqlRequest.mk "SmartBatterySessions")) := by
  refine ⟨?_, ?_, ?_⟩
  · intro h
    have hc : (auth.isNone || !is_authenticated auth) = true := by
      rw [h]; simp
    refine ⟨?_, ?_, ?_, ?_⟩ <;>
      simp only [renew_token_op, month_summary_op, meter_readings_op,
        invoices_op, hc, if_pos]
  · rintro rfl
    exact ⟨rfl, rfl, rfl, rfl, rfl, rfl⟩
  · intro h
    cases auth with
    | none => exact absurd rfl h
    | some a =>
      exact ⟨rfl, rfl, rfl, rfl, rfl, rfl⟩

/-- C5 witness: the amended theorem applied to the unauthenticated client
(`_auth = None`), for which both groups of guards raise. -/
theorem C5_witness :
    month_summary_op none "site" =
      Except.error (PyExc.authRequiredException "Authentication is required.") ∧
    smart_batteries_op none = Except.error (PyExc.authRequiredException "") :=
  ⟨((C5_theorem none "site" "dev" none).1 rfl).2.1,
   ((C5_theorem none "site" "dev" none).2.1 rfl).2.2.2.2.1⟩

/-- C6 counterexample: an invoices payload whose `previousPeriodInvoice`
is `null` makes `Invoices.from_dict` fail with `AttributeError`
(`None.get("StartDate")` inside `Invoices.Invoice.from_dict`), even though
the other two sub-periods are fully populated — construction does not
tolerate an absent sub-period. -/
theorem C6_counterexample :
    Invoices.from_dict (InvoicesResponse.mk []
      (Keyed.val (InvoicesData.mk (some (InvoicesPayload.mk
        none
        (some (InvoiceDict.mk (some 1680307200) (some "April 2023") (some 80.34)))
        (some (InvoiceDict.mk (some 1682899200) (some "Mei 2023") (some 80.34)))))))) =
      Except.error PyExc.attributeError := rfl

/-- C6 (amended): `Invoices.from_dict` on a response whose data and
invoices payloads are present constructs the value object field-by-field,
but requires every sub-period: the sub-periods are parsed in source order
(previous, current, upcoming) and the first one that is `null` aborts the
construction with `AttributeError`. -/
theorem C6_theorem (p : InvoicesPayload) :
    (p.previousPeriodInvoice = none →
      Invoices.from_dict (InvoicesResponse.mk [] (Keyed.val (InvoicesData.mk (some p)))) =
        Except.error PyExc.attributeError) ∧
    (∀ a ta, p.previousPeriodInvoice = some a → a.StartDate = some ta →
      p.currentPeriodInvoice = none →
      Invoices.from_dict (InvoicesResponse.mk [] (Keyed.val (InvoicesData.mk (some p)))) =
        Except.error PyExc.attributeError) ∧
    (∀ a b ta tb, p.previousPeriodInvoice = some a → a.StartDate = some ta →
      p.currentPeriodInvoice = some b → b.StartDate = some tb →
      p.upcomingPeriodInvoice = none →
      Invoices.from_dict (InvoicesResponse.mk [] (Keyed.val (InvoicesData.mk (some p)))) =
        Except.error PyExc.attributeError) ∧
    (∀ a b c ta tb tc, p.previousPeriodInvoice = some a → a.StartDate = some ta →
      p.currentPeriodInvoice = some b → b.StartDate = some tb →
      p.upcomingPeriodInvoice = some c → c.StartDate = some tc →
      Invoices.from_dict (InvoicesResponse.mk [] (Keyed.val (InvoicesData.mk (some p)))) =
        Except.ok (Invoices.mk
          (Invoice.mk ta a.PeriodDescription a.TotalAmount)
          (Invoice.mk tb b.PeriodDescription b.TotalAmount)
          (Invoice.mk tc c.PeriodDescription c.TotalAmount))) := by
  refine ⟨?_, ?_, ?_, ?_⟩
  · intro h
    simp [Invoices.from_dict, Invoice.from_dict, h, Bind.bind, Except.bind]
  · intro a ta ha hta h
    simp [Invoices.from_dict, Invoice.from_dict, ha, hta, h, Bind.bind, Except.bind]
  · intro a b ta tb ha hta hb htb h
    simp [Invoices.from_dict, Invoice.from_dict, ha, hta, hb, htb, h, Bind.bind, Except.bind]
  · intro a b c ta tb tc ha hta hb htb hc htc
    simp [Invoices.from_dict, Invoice.from_dict, ha, hta, hb, htb, hc, htc, Bind.bind, Except.bind, pure, Except.pure]

/-- C6 witness: the amended theorem applied to a fully populated payload. -/
theorem C6_witness :
    Invoices.from_dict (InvoicesResponse.mk []
      (Keyed.val (InvoicesData.mk (some (InvoicesPayload.mk
        (some (InvoiceDict.mk (some 1677628800) (some "Maart 2023") (some 140.12)))
        (some (InvoiceDict.mk (some 1680307200) (some "April 2023") (some 80.34)))
        (some (InvoiceDict.mk (some 1682899200) (some "Mei 2023") (some 80.34)))))))) =
      Except.ok (Invoices.mk
        (Invoice.mk 1677628800 (some "Maart 2023") (some 140.12))
        (Invoice.mk 1680307200 (some "April 2023") (some 80.34))
        (Invoice.mk 1682899200 (some "Mei 2023") (some 80.34))) :=
  (C6_theorem (InvoicesPayload.mk
      (some (InvoiceDict.mk (some 1677628800) (some "Maart 2023") (some 140.12)))
      (some (InvoiceDict.mk (some 1680307200) (some "April 2023") (some 80.34)))
      (some (InvoiceDict.mk (some 1682899200) (some "Mei 2023") (some 80.34))))).2.2.2
    _ _ _ _ _ _ rfl rfl rfl rfl rfl rfl

/-- C7: whenever `Authentication.from_dict` fails on the response body,
both `login` and `renew_token` leave the cached `self._auth` exactly as it
was before the call — the assignment `self._auth = Authentication.from_dict(...)`
is never executed past a raising parse, and no other branch of either
method mutates `_auth` without a successful parse. -/
theorem C7_theorem (auth : Option Authentication) (u pw : String)
    (r : AuthResponse) (h : isErr (Authentication.from_dict r) = true) :
    (login_step auth u pw r).1 = auth ∧ (renew_token_step auth r).1 = auth := by
  obtain ⟨e, he⟩ : ∃ e, Authentication.from_dict r = Except.error e := by
    cases hfd : Authentication.from_dict r with
    | error e => exact ⟨e, rfl⟩
    | ok a => rw [hfd] at h; simp [isErr] at h
  have hquery : ∀ resp, query_step r = Except.ok resp → resp = r := by
    intro resp hq
    unfold query_step at hq
    cases hh : handle_errors r.errors with
    | ok u2 => rw [hh] at hq; simp at hq; exact hq.symm
    | error e3 => rw [hh] at hq; simp at hq
  constructor
  · unfold login_step
    split
    · rfl
    · split
      · rfl
      · rename_i resp hq
        split
        · rfl
        · split <;> rfl
        · split
          · rfl
          · rename_i a hfd
            rw [hquery resp hq, he] at hfd
            exact absurd hfd (by simp)
  · unfold renew_token_step
    split
    · rfl
    · split
      · rfl
      · rename_i resp hq
        split
        · rfl
        · rename_i a hfd
          rw [hquery resp hq, he] at hfd
          exact absurd hfd (by simp)

/-- C7 witness: the theorem applied to an authenticated client and the
response body whose parse fails with `AuthException` ("Unexpected
response"). -/
theorem C7_witness :
    isErr (Authentication.from_dict (AuthResponse.mk [] Keyed.absent)) = true ∧
    (login_step (some (Authentication.mk (some "t") (some "r"))) "a" "b"
        (AuthResponse.mk [] Keyed.absent)).1 =
      some (Authentication.mk (some "t") (some "r")) ∧
    (renew_token_step (some (Authentication.mk (some "t") (some "r")))
        (AuthResponse.mk [] Keyed.absent)).1 =
      some (Authentication.mk (some "t") (some "r")) :=
  ⟨rfl,
    (C7_theorem (some (Authentication.mk (some "t") (some "r"))) "a" "b"
      (AuthResponse.mk [] Keyed.absent) rfl).1,
    (C7_theorem (some (Authentication.mk (some "t") (some "r"))) "a" "b"
      (AuthResponse.mk [] Keyed.absent) rfl).2⟩

/-- C8: concatenation of two price series appends the entry lists: the
length of the result is the sum of the lengths, every entry of `a` keeps
its position, and every entry of `b` follows at its position shifted by
the length of `a` (the operands themselves are values and are not
mutated: `self.price_data + b.price_data` builds a fresh list). -/
theorem C8_theorem (a b : PriceData) :
    (a.add b).price_data.length = a.price_data.length + b.price_data.length ∧
    (∀ i, i < a.price_data.length →
      ((a.add b).price_data)[i]? = (a.price_data)[i]?) ∧
    (∀ j, j < b.price_data.length →
      ((a.add b).price_data)[a.price_data.length + j]? = (b.price_data)[j]?) := by
  refine ⟨by simp [PriceData.add], ?_, ?_⟩
  · intro i hi
    simp only [PriceData.add]
    rw [List.getElem?_append, if_pos hi]
  · intro j hj
    simp only [PriceData.add]
    rw [List.getElem?_append, if_neg (by omega)]
    simp

/-- C8 witness: the theorem applied to two singleton series. -/
theorem C8_witness :
    ((PriceData.mk [Price.mk 0 3600 1 1 1 1]).add
        (PriceData.mk [Price.mk 3600 7200 2 2 2 2])).price_data.length =
      (PriceData.mk [Price.mk 0 3600 1 1 1 1]).price_data.length +
      (PriceData.mk [Price.mk 3600 7200 2 2 2 2]).price_data.length ∧
    (((PriceData.mk [Price.mk 0 3600 1 1 1 1]).add
        (PriceData.mk [Price.mk 3600 7200 2 2 2 2])).price_data)[0]? =
      ((PriceData.mk [Price.mk 0 3600 1 1 1 1]).price_data)[0]? ∧
    (((PriceData.mk [Price.mk 0 3600 1 1 1 1]).add
        (PriceData.mk [Price.mk 3600 7200 2 2 2 2])).price_data)[
          (PriceData.mk [Price.mk 0 3600 1 1 1 1]).price_data.length + 0]? =
      ((PriceData.mk [Price.mk 3600 7200 2 2 2 2]).price_data)[0]? := by
  have h := C8_theorem (PriceData.mk [Price.mk 0 3600 1 1 1 1])
    (PriceData.mk [Price.mk 3600 7200 2 2 2 2])
  exact ⟨h.1, h.2.1 0 (by decide), h.2.2 0 (by decide)⟩

/-- C9 counterexample: a client constructed around a caller-provided
session (`_close_session = False`) still holds that session after `close`
— the conjunct "after a close the client holds no session" of the claim
fails; `close` is a no-op for it, exactly because the session was not
acquired lazily. -/
theorem C9_counterexample :
    (close_step (init_session (some 7))).1.session = some 7 ∧
    (close_step (init_session (some 7))).2 = false := ⟨rfl, rfl⟩

/-- C9 (amended): `close` closes the underlying session only if
`_close_session` is set (it is set exactly when the client acquired the
session lazily itself, never for a caller-provided session); after a close
of a lazily-acquired session the client holds no session and every further
close call is a no-op that closes nothing; with `_close_session` unset,
`close` leaves the state unchanged and closes nothing. -/
theorem C9_theorem (st : SessionState) :
    ((close_step st).2 = true →
      st.closeSession = true ∧ st.session.isSome = true) ∧
    (st.closeSession = true → st.session.isSome = true →
      (close_step st).1 = SessionState.mk none false ∧
      (close_step st).2 = true ∧
      close_step (close_step st).1 = (SessionState.mk none false, false)) ∧
    (st.closeSession = false → close_step st = (st, false)) := by
  refine ⟨?_, ?_, ?_⟩
  · intro h
    unfold close_step at h
    by_cases hc : (st.closeSession && st.session.isSome) = true
    · exact Bool.and_eq_true_iff.mp hc
    · rw [if_neg hc] at h; simp at h
  · intro h1 h2
    have hc : (st.closeSession && st.session.isSome) = true := by
      rw [h1, h2]; rfl
    unfold close_step
    rw [if_pos hc]
    exact ⟨rfl, rfl, rfl⟩
  · intro h
    unfold close_step
    rw [if_neg (by rw [h]; simp)]

/-- C9 witness: the amended theorem applied to a lazily-acquired session
(the state `ensure_session` produces from a fresh client). -/
theorem C9_witness :
    (close_step (ensure_session (init_session none) 5)).1 =
      SessionState.mk none false ∧
    (close_step (ensure_session (init_session none) 5)).2 = true ∧
    close_step (close_step (ensure_session (init_session none) 5)).1 =
      (SessionState.mk none false, false) :=
  (C9_theorem (ensure_session (init_session none) 5)).2.1 rfl rfl

/-- C10: on a market-prices response without errors whose `data` object is
present and truthy, a `marketPricesElectricity` or `marketPricesGas` key
that is absent or bound to `null` yields no exception: `payload.get`
returns `None`, `PriceData.__init__` skips its body, and the resulting
series for the missing commodity has an empty entry list. -/
theorem C10_theorem (d : MarketData) (h : d.truthy = true) :
    (d.marketPricesElectricity.get = none →
      ∃ mp, MarketPrices.from_dict (MarketResponse.mk [] (some d)) = Except.ok mp ∧
        mp.marketPricesElectricity.price_data = []) ∧
    (d.marketPricesGas.get = none →
      ∃ mp, MarketPrices.from_dict (MarketResponse.mk [] (some d)) = Except.ok mp ∧
        mp.marketPricesGas.price_data = []) := by
  constructor
  · intro hg
    refine ⟨MarketPrices.mk (PriceData.ofPy d.marketPricesElectricity.get)
      (PriceData.ofPy d.marketPricesGas.get), ?_, ?_⟩
    · simp [MarketPrices.from_dict, h]
    · rw [hg]; rfl
  · intro hg
    refine ⟨MarketPrices.mk (PriceData.ofPy d.marketPricesElectricity.get)
      (PriceData.ofPy d.marketPricesGas.get), ?_, ?_⟩
    · simp [MarketPrices.from_dict, h]
    · rw [hg]; rfl

/-- C10 witness: the theorem applied to a data object carrying only a
`null` electricity key, an absent gas key and one other key (such as
`version`). -/
theorem C10_witness :
    (MarketData.truthy (MarketData.mk Keyed.null Keyed.absent 1) = true) ∧
    (∃ mp, MarketPrices.from_dict (MarketResponse.mk []
        (some (MarketData.mk Keyed.null Keyed.absent 1))) = Except.ok mp ∧
      mp.marketPricesElectricity.price_data = []) ∧
    (∃ mp, MarketPrices.from_dict (MarketResponse.mk []
        (some (MarketData.mk Keyed.null Keyed.absent 1))) = Except.ok mp ∧
      mp.marketPricesGas.price_data = []) :=
  ⟨rfl,
    (C10_theorem (MarketData.mk Keyed.null Keyed.absent 1) rfl).1 rfl,
    (C10_theorem (MarketData.mk Keyed.null Keyed.absent 1) rfl).2 rfl⟩
